import Mathlib

/-!
Shallow embedding of `src/src/sensorcapture.cpp` (namespace `sl_drv`,
class `SensorCapture`): device enumeration, session open/close, and the
capture-loop decode of the fixed-layout HID sensor-data frame.

The companion header `sensorcapture.hpp` is not part of the sources, so the
wire-format constants, the `SensData` layout and the sample structures are
modelled from the spec (each such definition says so in its doc comment).
Raw integer fields are embedded as `Int`/`Nat`; scaled physical values are
embedded as `ℚ` with the firmware scale constants kept abstract in a
`Scales` record, so that "stored = raw * scale" is exact arithmetic.
-/

namespace SL

/-- Modelled from the spec: per-channel status byte for the magnetometer
channel (`MAG::MagStatus`, declared in the missing header). The spec names
the states `{NoNewData, NewValue, NotValid, ...}` without fixing numeric
values; the embedding keeps the raw byte as a `Nat` and designates the
`NEW_VAL` code. Only comparisons against `NEW_VAL` (and zero, via the C++
enum-to-bool conversion) matter to the claims, not the chosen value. -/
def MAG.NEW_VAL : Nat := 2

/-- Modelled from the spec: per-channel status byte for the environmental
channel (`ENV::EnvStatus`, declared in the missing header); see
`MAG.NEW_VAL` for the encoding convention. -/
def ENV.NEW_VAL : Nat := 2

/-- Modelled from the spec: the reserved "not valid" sentinel for the raw
camera temperature fields (`TEMP_NOT_VALID` in the missing header). The
claims only compare raw fields against it, so the concrete value is
immaterial. -/
def TEMP_NOT_VALID : Int := -32768

/-- Modelled from the spec: report tag of the sensor-data frame
(`REP_ID_SENSOR_DATA` in the missing header); fixed tag B of §6. -/
def REP_ID_SENSOR_DATA : Nat := 0x01

/-- Modelled from the spec: `sizeof(SensData)` — the size of the
fixed-layout sensor-data frame the loop compares the read length against.
The loop requests 64 payload bytes of the 65-byte report buffer. -/
def sizeofSensData : Int := 64

/-- Modelled from the spec: the firmware scale constants
(`TS_SCALE`, `ACC_SCALE`, `GYRO_SCALE`, `TEMP_SCALE`, `MAG_SCALE`,
`PRESS_SCALE_NEW`, `HUMID_SCALE_NEW` in the missing header), "externally
specified fixed multipliers converting raw integer units to physical float
units". Kept abstract as a record of rationals. -/
structure Scales where
  ts : ℚ
  acc : ℚ
  gyro : ℚ
  temp : ℚ
  mag : ℚ
  pressNew : ℚ
  humidNew : ℚ
deriving Repr, DecidableEq

/-- Modelled from the spec: the typed view of a correctly-tagged raw
report (`SensData` in the missing header). Byte 0 is the report tag; the
payload carries the fixed-offset raw integer fields listed in §6. Status
bytes are `Nat`, signed raw samples are `Int`, the raw timestamp is a
`Nat` (uint64 ticks). -/
structure SensData where
  tag : Nat
  imu_not_valid : Nat
  timestamp : Nat
  aX : Int
  aY : Int
  aZ : Int
  gX : Int
  gY : Int
  gZ : Int
  imu_temp : Int
  mag_valid : Nat
  mX : Int
  mY : Int
  mZ : Int
  env_valid : Nat
  temp : Int
  press : Int
  humid : Int
  temp_cam_left : Int
  temp_cam_right : Int
deriving Repr, DecidableEq

/-- Modelled from the spec: `IMUSample` — `{valid: bool, timestampTicks,
accelX/Y/Z, gyroX/Y/Z, tempC}`. Field names follow the source's
`mLastIMUData` member accesses. -/
structure IMUSample where
  valid : Bool
  timestamp : ℚ
  aX : ℚ
  aY : ℚ
  aZ : ℚ
  gX : ℚ
  gY : ℚ
  gZ : ℚ
  temp : ℚ
deriving Repr, DecidableEq

/-- Modelled from the spec: `MagSample` — status byte plus scaled
magnetic-field components. The source stores the status code in the field
it calls `valid` (`mLastMAGData.valid`), kept as the raw byte. -/
structure MagSample where
  valid : Nat
  timestamp : ℚ
  mX : ℚ
  mY : ℚ
  mZ : ℚ
deriving Repr, DecidableEq

/-- Modelled from the spec: `EnvSample` — status byte plus scaled
temperature, pressure and humidity (`mLastENVData`). -/
structure EnvSample where
  valid : Nat
  timestamp : ℚ
  temp : ℚ
  press : ℚ
  humid : ℚ
deriving Repr, DecidableEq

/-- Modelled from the spec: `CamTempSample` — validity flag plus scaled
left/right camera temperatures (`mLastCamTempData`). -/
structure CamTempSample where
  valid : Bool
  timestamp : ℚ
  temp_left : ℚ
  temp_right : ℚ
deriving Repr, DecidableEq

/-- The SampleStore: the four latest-known-value sample members of
`SensorCapture` written by the capture loop. -/
structure SampleStore where
  imu : IMUSample
  mag : MagSample
  env : EnvSample
  camTemp : CamTempSample
deriving Repr, DecidableEq

/-- Embedding of the decode section of `SensorCapture::grabThreadFunc`
(sensorcapture.cpp lines 271–341): the straight-line sample update applied
to a correctly-sized, correctly-tagged report, in source order — IMU block,
magnetometer block, environmental block, camera-temperature block. The
`else` branches of the magnetometer and environmental blocks assign
`static_cast<MAG::MagStatus>(data->mag_valid)` to `mLastIMUData.valid`
exactly as the source does; with the spec's `bool` type for that field the
C++ enum value converts to `true` iff it is nonzero. -/
def applyFrame (sc : Scales) (s : SampleStore) (d : SensData) : SampleStore :=
  let imu1 : IMUSample :=
    { valid := decide (d.imu_not_valid ≠ 1)
      timestamp := (d.timestamp : ℚ) * sc.ts
      aX := (d.aX : ℚ) * sc.acc
      aY := (d.aY : ℚ) * sc.acc
      aZ := (d.aZ : ℚ) * sc.acc
      gX := (d.gX : ℚ) * sc.gyro
      gY := (d.gY : ℚ) * sc.gyro
      gZ := (d.gZ : ℚ) * sc.gyro
      temp := (d.imu_temp : ℚ) * sc.temp }
  let s1 : SampleStore := { s with imu := imu1 }
  let s2 : SampleStore :=
    if d.mag_valid = MAG.NEW_VAL then
      { s1 with mag :=
        { valid := MAG.NEW_VAL
          timestamp := (d.timestamp : ℚ) * sc.ts
          mX := (d.mX : ℚ) * sc.mag
          mY := (d.mY : ℚ) * sc.mag
          mZ := (d.mZ : ℚ) * sc.mag } }
    else
      { s1 with imu := { s1.imu with valid := decide (d.mag_valid ≠ 0) } }
  let s3 : SampleStore :=
    if d.env_valid = ENV.NEW_VAL then
      { s2 with env :=
        { valid := ENV.NEW_VAL
          timestamp := (d.timestamp : ℚ) * sc.ts
          temp := (d.temp : ℚ) * sc.temp
          press := (d.press : ℚ) * sc.pressNew
          humid := (d.humid : ℚ) * sc.humidNew } }
    else
      { s2 with imu := { s2.imu with valid := decide (d.mag_valid ≠ 0) } }
  if d.temp_cam_left ≠ TEMP_NOT_VALID ∧ d.temp_cam_left ≠ TEMP_NOT_VALID ∧
      d.env_valid = ENV.NEW_VAL then
    { s3 with camTemp :=
      { valid := true
        timestamp := (d.timestamp : ℚ) * sc.ts
        temp_left := (d.temp_cam_left : ℚ) * sc.temp
        temp_right := (d.temp_cam_right : ℚ) * sc.temp } }
  else
    { s3 with camTemp := { s3.camTemp with valid := false } }

/-- One capture-loop iteration's effect on the SampleStore
(`SensorCapture::grabThreadFunc`, lines 250–341): `res` is the byte count
returned by `hid_read_timeout` (negative on error, `0` on timeout), `d`
the buffer's typed view. A read shorter than `sizeof(SensData)` or a
report whose tag byte differs from `REP_ID_SENSOR_DATA` leaves every
sample untouched (`continue`); otherwise the frame is decoded. -/
def grabStep (sc : Scales) (s : SampleStore) (res : Int) (d : SensData) : SampleStore :=
  if res < sizeofSensData then s
  else if d.tag ≠ REP_ID_SENSOR_DATA then s
  else applyFrame sc s d

/-- The capture loop over a finite trace of read results, folding
`grabStep`; a transient iteration leaves the store unchanged and the loop
continues with the remaining reads. -/
def grabLoop (sc : Scales) : List (Int × SensData) → SampleStore → SampleStore
  | [], s => s
  | r :: rs, s => grabLoop sc rs (grabStep sc s r.1 r.2)

/-- Keep-alive cadence of `grabThreadFunc` (lines 234–246): the number of
`sendPing` calls made during `n` loop iterations when the iteration
counter starts at `c`. Each iteration first checks `ping_data_count>=400`
(on success resetting the counter to `0` and pinging) and then increments
the counter, so the counter entering the next iteration is `1` after a
ping and `c+1` otherwise. The loop enters with the counter at `0`. -/
def pingCount : Nat → Nat → Nat
  | 0, _ => 0
  | n + 1, c => if c ≥ 400 then pingCount n 1 + 1 else pingCount n (c + 1)

/-- The serial-to-product-id registry `mSlDevPid` (`std::map<int,uint16_t>`),
embedded as an association list kept sorted by strictly increasing key. -/
abbrev Registry := List (Int × Nat)

/-- `std::map` insert-or-assign (`mSlDevPid[sn]=pid`), preserving the
sorted-keys representation. -/
def mapInsert : Registry → Int → Nat → Registry
  | [], k, v => [(k, v)]
  | (k', v') :: r, k, v =>
    if k < k' then (k, v) :: (k', v') :: r
    else if k = k' then (k, v) :: r
    else (k', v') :: mapInsert r k v

/-- `std::map` key lookup (used for `mSlDevPid[sn]` read-out in `init`). -/
def mapFind : Registry → Int → Option Nat
  | [], _ => none
  | (k', v) :: r, k => if k = k' then some v else mapFind r k

/-- Value of a non-empty decimal digit prefix, `none` when the first
character is not a digit — the core of `std::stoi`'s accept/throw rule. -/
def digitsVal (cs : List Char) : Option Nat :=
  let ds := cs.takeWhile Char.isDigit
  if ds.isEmpty then none
  else some (ds.foldl (fun acc c => acc * 10 + (c.toNat - 48)) 0)

/-- Embedding of `std::stoi` as used on the device serial string
(line 33): skip leading whitespace, accept an optional sign followed by at
least one decimal digit (trailing junk ignored), and fail — the C++ call
throws `std::invalid_argument` — when no digit follows. The embedding uses
unbounded `Int`, so `std::out_of_range` on huge inputs is not modelled;
the claims only involve small serial numbers. -/
def stoi (s : String) : Option Int :=
  let cs := s.data.dropWhile Char.isWhitespace
  match cs with
  | [] => none
  | c :: rest =>
    if c == '-' then (digitsVal rest).map (fun n => -(n : Int))
    else if c == '+' then (digitsVal rest).map (fun n => (n : Int))
    else (digitsVal (c :: rest)).map (fun n => (n : Int))

/-- Modelled from the spec: the fields of `hid_device_info` that
`enumerateDevices` feeds into the registry (the remaining fields only feed
verbose logging). -/
structure DevInfo where
  serial_number : String
  product_id : Nat
deriving Repr, DecidableEq

/-- How a call to `enumerateDevices` ends: a normal return carrying
`mSlDevPid.size()`, or the `std::invalid_argument` thrown by `std::stoi`
on a non-numeric serial escaping the call (the function has no handler). -/
inductive EnumRet where
  | ret (n : Nat)
  | serialFormatFailure
deriving Repr, DecidableEq

/-- The device-list walk of `SensorCapture::enumerateDevices`
(lines 28–54): parse each entry's serial string and insert it into the
registry; a failing parse aborts the walk with the exception in flight,
leaving the registry holding exactly the entries inserted so far. -/
def enumFold : List DevInfo → Registry → Registry × EnumRet
  | [], r => (r, .ret r.length)
  | d :: ds, r =>
    match stoi d.serial_number with
    | none => (r, .serialFormatFailure)
    | some sn => enumFold ds (mapInsert r sn d.product_id)

/-- Embedding of `SensorCapture::enumerateDevices` (lines 17–59): the
member registry is cleared first (`mSlDevPid.clear()`), then `hid_init`
failure returns `0` with the registry left empty, then the enumerated
device list is walked. Returns the registry state after the call together
with how the call ended; `prior` is the registry state before the call
(discarded by the clear — it is a parameter so that claims can compare
against it). -/
def enumerateDevices (hidInitOk : Bool) (devs : List DevInfo) (prior : Registry) :
    Registry × EnumRet :=
  let _ := prior
  if !hidInitOk then ([], .ret 0)
  else enumFold devs []

/-- Observable outcome of `SensorCapture::init`: the value it returns, the
`mInitialized` member after the call, the registry after the call, and the
serial number handed to `hid_open` (`none` when `hid_open` was never
reached). -/
structure InitResult where
  ret : Bool
  mInitialized : Bool
  registry : Registry
  openedSn : Option Int
deriving Repr, DecidableEq

/-- Tail of `SensorCapture::init` from line 98 on, once the serial `sn` is
fixed: `mSlDevPid[sn]` (a `std::map` `operator[]`, which default-inserts
`0` for an absent key), then `hid_open` — failure returns `false` —, then
`mInitialized = startCapture()` where `startCapture` succeeds iff
`enableDataStream(true)` succeeded (the thread spawn itself is modelled as
always succeeding), and finally `return true` regardless. `handleOk`
stands for `hid_open` returning a handle and `enableOk` for
`hid_send_feature_report` accepting the enable command; `prevInit` is
`mInitialized` before the call. -/
def initCont (r : Registry) (sn : Int) (handleOk enableOk prevInit : Bool) : InitResult :=
  let r' := match mapFind r sn with
    | some _ => r
    | none => mapInsert r sn 0
  if !handleOk then ⟨false, prevInit, r', some sn⟩
  else ⟨true, enableOk, r', some sn⟩

/-- The registry `init` works from when no serial is given (lines 83–86):
the member registry, re-enumerated first when it is empty; paired with how
that enumeration (or the trivial reuse) ended. -/
def initEffReg (hidInitOk : Bool) (devs : List DevInfo) (r : Registry) :
    Registry × EnumRet :=
  if r.length = 0 then enumerateDevices hidInitOk devs r else (r, .ret r.length)

/-- Embedding of `SensorCapture::init` (lines 75–127). With `sn = -1` the
registry is enumerated when empty, a still-empty registry fails with the
"No available ZED Mini or ZED2 cameras" error (`return false`), and
otherwise the serial is `mSlDevPid.begin()->first` — the smallest key of
the ordered map, i.e. the head of the sorted association list. A
`std::stoi` exception raised inside the enumeration propagates out of
`init` (`Except.error`). -/
def init (hidInitOk : Bool) (devs : List DevInfo) (r : Registry) (sn : Int)
    (handleOk enableOk prevInit : Bool) : Except Unit InitResult :=
  if sn ≠ -1 then .ok (initCont r sn handleOk enableOk prevInit)
  else
    match (initEffReg hidInitOk devs r).2, (initEffReg hidInitOk devs r).1 with
    | .serialFormatFailure, _ => .error ()
    | .ret _, [] => .ok ⟨false, prevInit, [], none⟩
    | .ret _, (k, _) :: _ =>
        .ok (initCont (initEffReg hidInitOk devs r).1 k handleOk enableOk prevInit)

/-- The session-lifecycle state touched by `SensorCapture::reset`:
the stop flag, whether the grab thread is joinable, whether `mDevHandle`
is non-null, and `mInitialized`. -/
structure SessionState where
  mStopCapture : Bool
  mGrabJoinable : Bool
  mDevHandle : Bool
  mInitialized : Bool
deriving Repr, DecidableEq

/-- Embedding of `SensorCapture::reset` (lines 200–223): set the stop
flag; join the grab thread only if it is joinable (a joined thread is no
longer joinable); `enableDataStream(false)` — a feature-report write that
returns immediately when the handle is already closed and changes no
session state either way, its failure only logged; close and null the
handle if present; clear `mInitialized`. The returned `Bool` records
whether this call performed a (blocking) `join`. -/
def reset (s : SessionState) : SessionState × Bool :=
  let s1 := { s with mStopCapture := true }
  let p2 := if s1.mGrabJoinable then ({ s1 with mGrabJoinable := false }, true) else (s1, false)
  let s3 := if p2.1.mDevHandle then { p2.1 with mDevHandle := false } else p2.1
  ({ s3 with mInitialized := false }, p2.2)

/-- `headIsMin r`: the key of the first registry entry is at most every key
in the registry — the property that makes `mSlDevPid.begin()->first` the
lowest serial. It is the invariant `enumerateDevices` establishes through
its ordered inserts. -/
def headIsMin : Registry → Prop
  | [] => True
  | p :: rest => ∀ q ∈ rest, p.1 ≤ q.1

/-- A unit scale assignment used for concrete evaluations. -/
def sc0 : Scales := ⟨1, 1, 1, 1, 1, 1, 1⟩

/-- A concrete pre-frame SampleStore with distinctive magnetometer and
environmental values, used to observe which fields a decode touches. -/
def store0 : SampleStore :=
  { imu := ⟨false, 0, 0, 0, 0, 0, 0, 0, 0⟩
    mag := ⟨0, 5, 6, 7, 8⟩
    env := ⟨0, 9, 10, 11, 12⟩
    camTemp := ⟨false, 0, 0, 0⟩ }

/-- A fully fresh sensor-data frame: IMU valid, magnetometer and
environment both reporting `NEW_VAL`, camera temperatures present. -/
def dFrame0 : SensData :=
  { tag := REP_ID_SENSOR_DATA
    imu_not_valid := 0
    timestamp := 1000
    aX := 2, aY := 3, aZ := 4
    gX := 5, gY := 6, gZ := 7
    imu_temp := 8
    mag_valid := MAG.NEW_VAL
    mX := 9, mY := 10, mZ := 11
    env_valid := ENV.NEW_VAL
    temp := 12, press := 13, humid := 14
    temp_cam_left := 15, temp_cam_right := 16 }

/-- A frame whose magnetometer and environmental status bytes are `1`
(a non-`NEW_VAL`, nonzero status code) and whose IMU validity byte is the
"not valid" sentinel. -/
def dC1 : SensData := { dFrame0 with imu_not_valid := 1, mag_valid := 1, env_valid := 1 }

/-- A frame whose right camera temperature is the "not valid" sentinel
while the left one is present and the environmental status is `NEW_VAL`. -/
def dC3 : SensData := { dFrame0 with temp_cam_right := TEMP_NOT_VALID }

/-- A frame with the IMU validity byte at the "not valid" sentinel and
everything else fresh. -/
def dC10 : SensData := { dFrame0 with imu_not_valid := 1 }

/-- A device list whose only entry carries a non-numeric serial string. -/
def devsC4 : List DevInfo := [⟨"abc", 7⟩]

/-- A device list with one numeric serial followed by a non-numeric one. -/
def devsC4w : List DevInfo := [⟨"1001", 3⟩, ⟨"abc", 7⟩]

/-- A non-empty registry state predating an enumeration call. -/
def priorC4 : Registry := [(42, 16)]

/-- A device list reporting serials out of ascending order, to exercise
the ordered-map insertion. -/
def devsC6 : List DevInfo := [⟨"1002", 4⟩, ⟨"1001", 3⟩]

end SL

namespace SL

/-- Characterization of the IMU sample after a decode: the scaled fields
always come from the frame; the `valid` flag comes from the IMU validity
byte only when both the magnetometer and environmental branches took their
`NEW_VAL` path, because the two `else` branches overwrite
`mLastIMUData.valid` with the (bool-converted) magnetometer status. -/
theorem applyFrame_imu (sc : Scales) (s : SampleStore) (d : SensData) :
    (applyFrame sc s d).imu =
      { valid :=
          if d.env_valid = ENV.NEW_VAL then
            (if d.mag_valid = MAG.NEW_VAL then decide (d.imu_not_valid ≠ 1)
             else decide (d.mag_valid ≠ 0))
          else decide (d.mag_valid ≠ 0)
        timestamp := (d.timestamp : ℚ) * sc.ts
        aX := (d.aX : ℚ) * sc.acc
        aY := (d.aY : ℚ) * sc.acc
        aZ := (d.aZ : ℚ) * sc.acc
        gX := (d.gX : ℚ) * sc.gyro
        gY := (d.gY : ℚ) * sc.gyro
        gZ := (d.gZ : ℚ) * sc.gyro
        temp := (d.imu_temp : ℚ) * sc.temp } := by
  simp only [applyFrame]
  split_ifs <;> rfl

/-- C9: for every raw sensor-data frame whose IMU validity byte is not the
"not valid" sentinel (`1`), the decode stores acceleration equal to the
raw fields times `ACC_SCALE`, angular rate equal to the raw fields times
`GYRO_SCALE`, and IMU temperature equal to the raw field times
`TEMP_SCALE`. -/
theorem C9_imu_linear_scaling (sc : Scales) (s : SampleStore) (d : SensData)
    (h : d.imu_not_valid ≠ 1) :
    (applyFrame sc s d).imu.aX = (d.aX : ℚ) * sc.acc ∧
    (applyFrame sc s d).imu.aY = (d.aY : ℚ) * sc.acc ∧
    (applyFrame sc s d).imu.aZ = (d.aZ : ℚ) * sc.acc ∧
    (applyFrame sc s d).imu.gX = (d.gX : ℚ) * sc.gyro ∧
    (applyFrame sc s d).imu.gY = (d.gY : ℚ) * sc.gyro ∧
    (applyFrame sc s d).imu.gZ = (d.gZ : ℚ) * sc.gyro ∧
    (applyFrame sc s d).imu.temp = (d.imu_temp : ℚ) * sc.temp := by
  rw [applyFrame_imu]
  exact ⟨rfl, rfl, rfl, rfl, rfl, rfl, rfl⟩

/-- Witness for C9 at the concrete fresh frame `dFrame0`. -/
theorem C9_imu_linear_scaling_witness :
    dFrame0.imu_not_valid ≠ 1 ∧
    ((applyFrame sc0 store0 dFrame0).imu.aX = (dFrame0.aX : ℚ) * sc0.acc ∧
     (applyFrame sc0 store0 dFrame0).imu.aY = (dFrame0.aY : ℚ) * sc0.acc ∧
     (applyFrame sc0 store0 dFrame0).imu.aZ = (dFrame0.aZ : ℚ) * sc0.acc ∧
     (applyFrame sc0 store0 dFrame0).imu.gX = (dFrame0.gX : ℚ) * sc0.gyro ∧
     (applyFrame sc0 store0 dFrame0).imu.gY = (dFrame0.gY : ℚ) * sc0.gyro ∧
     (applyFrame sc0 store0 dFrame0).imu.gZ = (dFrame0.gZ : ℚ) * sc0.gyro ∧
     (applyFrame sc0 store0 dFrame0).imu.temp = (dFrame0.imu_temp : ℚ) * sc0.temp) :=
  ⟨by decide, C9_imu_linear_scaling sc0 store0 dFrame0 (by decide)⟩

/-- C10: for every correctly-decoded frame, the stored IMU sample's
timestamp, acceleration, angular-rate and temperature fields are
overwritten with the frame's scaled values even when the IMU validity byte
equals the "not valid" sentinel, and the validity byte influences nothing
but the stored `valid` flag: masking `imu.valid`, the decode result is
independent of that byte. -/
theorem C10_invalid_byte_does_not_suppress_update (sc : Scales) (s : SampleStore)
    (d : SensData) (h : d.imu_not_valid = 1) :
    ((applyFrame sc s d).imu.timestamp = (d.timestamp : ℚ) * sc.ts ∧
     (applyFrame sc s d).imu.aX = (d.aX : ℚ) * sc.acc ∧
     (applyFrame sc s d).imu.aY = (d.aY : ℚ) * sc.acc ∧
     (applyFrame sc s d).imu.aZ = (d.aZ : ℚ) * sc.acc ∧
     (applyFrame sc s d).imu.gX = (d.gX : ℚ) * sc.gyro ∧
     (applyFrame sc s d).imu.gY = (d.gY : ℚ) * sc.gyro ∧
     (applyFrame sc s d).imu.gZ = (d.gZ : ℚ) * sc.gyro ∧
     (applyFrame sc s d).imu.temp = (d.imu_temp : ℚ) * sc.temp) ∧
    (∀ v : Nat,
      { applyFrame sc s { d with imu_not_valid := v } with
        imu := { (applyFrame sc s { d with imu_not_valid := v }).imu with valid := false } } =
      { applyFrame sc s d with
        imu := { (applyFrame sc s d).imu with valid := false } }) := by
  constructor
  · rw [applyFrame_imu]
    exact ⟨rfl, rfl, rfl, rfl, rfl, rfl, rfl, rfl⟩
  · intro v
    simp only [applyFrame]
    split_ifs <;> rfl

/-- Witness for C10 at the concrete frame `dC10` (IMU validity byte at the
sentinel). -/
theorem C10_invalid_byte_does_not_suppress_update_witness :
    dC10.imu_not_valid = 1 ∧
    (((applyFrame sc0 store0 dC10).imu.timestamp = (dC10.timestamp : ℚ) * sc0.ts ∧
      (applyFrame sc0 store0 dC10).imu.aX = (dC10.aX : ℚ) * sc0.acc ∧
      (applyFrame sc0 store0 dC10).imu.aY = (dC10.aY : ℚ) * sc0.acc ∧
      (applyFrame sc0 store0 dC10).imu.aZ = (dC10.aZ : ℚ) * sc0.acc ∧
      (applyFrame sc0 store0 dC10).imu.gX = (dC10.gX : ℚ) * sc0.gyro ∧
      (applyFrame sc0 store0 dC10).imu.gY = (dC10.gY : ℚ) * sc0.gyro ∧
      (applyFrame sc0 store0 dC10).imu.gZ = (dC10.gZ : ℚ) * sc0.gyro ∧
      (applyFrame sc0 store0 dC10).imu.temp = (dC10.imu_temp : ℚ) * sc0.temp) ∧
     (∀ v : Nat,
       { applyFrame sc0 store0 { dC10 with imu_not_valid := v } with
         imu := { (applyFrame sc0 store0 { dC10 with imu_not_valid := v }).imu with
                  valid := false } } =
       { applyFrame sc0 store0 dC10 with
         imu := { (applyFrame sc0 store0 dC10).imu with valid := false } })) :=
  ⟨rfl, C10_invalid_byte_does_not_suppress_update sc0 store0 dC10 rfl⟩

/-- C1: the claim says a frame whose magnetometer (resp. environmental)
status byte is not `NewValue` leaves the stored Mag/Env sample's data
fields and timestamp unchanged but sets its status field to the frame's
code. On the frame `dC1` (mag status `1`, env status `1`, both
non-`NEW_VAL`) the code instead leaves both stored samples entirely
unchanged — their status fields included — and overwrites
`mLastIMUData.valid` with the bool-converted magnetometer status, so the
IMU sample reads valid even though its validity byte is the sentinel.
This exhibits the `mLastIMUData.valid` assignments in the two `else`
branches (lines 302 and 320). -/
theorem C1_status_written_to_imu_bug :
    dC1.mag_valid ≠ MAG.NEW_VAL ∧
    dC1.env_valid ≠ ENV.NEW_VAL ∧
    (applyFrame sc0 store0 dC1).mag = store0.mag ∧
    (applyFrame sc0 store0 dC1).mag.valid ≠ dC1.mag_valid ∧
    (applyFrame sc0 store0 dC1).env = store0.env ∧
    (applyFrame sc0 store0 dC1).env.valid ≠ dC1.env_valid ∧
    dC1.imu_not_valid = 1 ∧
    (applyFrame sc0 store0 dC1).imu.valid = true := by
  decide

/-- C3: the claim says the camera-temperature sample is valid only when
BOTH raw temperature fields differ from the sentinel. On the frame `dC3`
the right temperature IS the sentinel, the left is present and the
environmental status is `NEW_VAL`, yet the decode marks the sample valid:
the condition at lines 325–327 tests `temp_cam_left` twice and never
inspects `temp_cam_right`. -/
theorem C3_right_temperature_never_checked_bug :
    dC3.temp_cam_left ≠ TEMP_NOT_VALID ∧
    dC3.temp_cam_right = TEMP_NOT_VALID ∧
    dC3.env_valid = ENV.NEW_VAL ∧
    (applyFrame sc0 store0 dC3).camTemp.valid = true := by
  decide

/-- C2: the claim says `open` reports failure when the handle is obtained
but the enable-stream command fails. In the code, `init` stores
`startCapture()`'s result in `mInitialized` but then returns `true`
unconditionally (lines 124–126): with the handle obtained and the enable
feature report failing, the call still reports success. -/
theorem C2_enable_failure_still_returns_true_bug :
    init true [] [(1001, 42)] 1001 true false false =
      .ok { ret := true, mInitialized := false, registry := [(1001, 42)],
            openedSn := some 1001 } :=
  rfl

set_option maxRecDepth 8000 in
/-- C5 counterexample: after exactly 400 loop iterations the code has sent
no ping (the counter is checked before the increment, so the first ping
happens on iteration 401), while the claim's `⌊n/400⌋` predicts one. -/
theorem C5_floor_formula_counterexample :
    pingCount 400 0 = 0 ∧ (400 : Nat) / 400 = 1 ∧ pingCount 400 0 ≠ 400 / 400 := by
  refine ⟨by decide, by decide, by decide⟩

/-- Helper for the ping cadence: with the counter at `c ∈ [1, 400]`, the
number of pings over `n` iterations is `⌊(n + c - 1) / 400⌋`. -/
theorem pingCount_shifted (n : Nat) : ∀ c : Nat, 1 ≤ c → c ≤ 400 →
    pingCount n c = (n + c - 1) / 400 := by
  induction n with
  | zero =>
    intro c h1 h2
    simp only [pingCount]
    rw [Nat.div_eq_of_lt (by omega)]
  | succ n ih =>
    intro c h1 h2
    simp only [pingCount]
    by_cases hc : c ≥ 400
    · have hc' : c = 400 := by omega
      subst hc'
      rw [if_pos (by omega), ih 1 (by omega) (by omega)]
      omega
    · rw [if_neg hc, ih (c + 1) (by omega) (by omega)]
      have : n + (c + 1) - 1 = n + 1 + c - 1 := by omega
      rw [this]

/-- C5 amended: over a run of `n` capture-loop iterations starting with
the counter at `0`, the keep-alive ping is sent exactly `⌊(n − 1)/400⌋`
times — the first ping occurs on iteration 401 and then once every 400
iterations, the counter being reset after each ping. -/
theorem C5_ping_cadence (n : Nat) : pingCount n 0 = (n - 1) / 400 := by
  cases n with
  | zero => simp [pingCount]
  | succ n =>
    simp only [pingCount]
    rw [if_neg (by omega), pingCount_shifted n 1 (by omega) (by omega)]

/-- C7: a capture-loop iteration whose read times out or returns fewer
bytes than the sensor-data frame size (`hid_read_timeout` yields `0` on
timeout and `-1` on error, both below `sizeof(SensData)`), or whose report
tag differs from `REP_ID_SENSOR_DATA`, mutates no field of any stored
sample, and the loop goes on to process the remaining reads. -/
theorem C7_transient_read_no_mutation (sc : Scales) (s : SampleStore) (res : Int)
    (d : SensData) (rs : List (Int × SensData))
    (h : res < sizeofSensData ∨ d.tag ≠ REP_ID_SENSOR_DATA) :
    grabStep sc s res d = s ∧
    grabLoop sc ((res, d) :: rs) s = grabLoop sc rs s := by
  have hs : grabStep sc s res d = s := by
    rcases h with h | h
    · simp [grabStep, h]
    · simp [grabStep, h]
  exact ⟨hs, by simp [grabLoop, hs]⟩

/-- Witness for C7: a 10-byte report (shorter than the 64-byte frame) read
into the concrete store leaves it untouched. -/
theorem C7_transient_read_no_mutation_witness :
    ((10 : Int) < sizeofSensData ∨ dFrame0.tag ≠ REP_ID_SENSOR_DATA) ∧
    (grabStep sc0 store0 10 dFrame0 = store0 ∧
     grabLoop sc0 [((10 : Int), dFrame0)] store0 = grabLoop sc0 [] store0) :=
  ⟨Or.inl (by decide),
   C7_transient_read_no_mutation sc0 store0 10 dFrame0 [] (Or.inl (by decide))⟩

/-- C8: `close()` (the source's `reset`) is idempotent — running it twice
from any session state yields the same state as running it once — and the
second run performs no blocking `join` (the thread is no longer joinable)
and completes without failing, in particular as a no-op on an
already-closed session. -/
theorem C8_reset_idempotent (s : SessionState) :
    (reset (reset s).1).1 = (reset s).1 ∧ (reset (reset s).1).2 = false := by
  cases s with
  | mk a b c d => cases b <;> cases c <;> simp [reset]

/-- Membership after a `std::map` insert: every entry of the result is the
inserted pair or an entry of the original registry. -/
theorem mem_mapInsert (k : Int) (v : Nat) :
    ∀ r : Registry, ∀ q ∈ mapInsert r k v, q = (k, v) ∨ q ∈ r := by
  intro r
  induction r with
  | nil =>
    intro q hq
    simp only [mapInsert, List.mem_singleton] at hq
    exact Or.inl hq
  | cons p r ih =>
    obtain ⟨k', v'⟩ := p
    intro q hq
    simp only [mapInsert] at hq
    split_ifs at hq with h1 h2
    · rcases List.mem_cons.mp hq with h | h
      · exact Or.inl h
      · exact Or.inr h
    · rcases List.mem_cons.mp hq with h | h
      · exact Or.inl h
      · exact Or.inr (List.mem_cons_of_mem _ h)
    · rcases List.mem_cons.mp hq with h | h
      · exact Or.inr (by simp [h])
      · rcases ih q h with h' | h'
        · exact Or.inl h'
        · exact Or.inr (List.mem_cons_of_mem _ h')

/-- A `std::map` insert keeps the first entry's key minimal. -/
theorem headIsMin_mapInsert (r : Registry) (k : Int) (v : Nat) (h : headIsMin r) :
    headIsMin (mapInsert r k v) := by
  cases r with
  | nil => simp [mapInsert, headIsMin]
  | cons p r =>
    obtain ⟨k', v'⟩ := p
    simp only [headIsMin] at h
    simp only [mapInsert]
    split_ifs with h1 h2
    · intro q hq
      rcases List.mem_cons.mp hq with rfl | hq'
      · exact le_of_lt h1
      · exact le_of_lt (lt_of_lt_of_le h1 (h q hq'))
    · intro q hq
      subst h2
      exact h q hq
    · intro q hq
      rcases mem_mapInsert k v r q hq with rfl | hq'
      · omega
      · exact h q hq'

/-- The device-list walk preserves the minimal-head property of the
registry it builds. -/
theorem enumFold_headIsMin : ∀ (ds : List DevInfo) (r : Registry), headIsMin r →
    headIsMin (enumFold ds r).1 := by
  intro ds
  induction ds with
  | nil => intro r h; exact h
  | cons d ds ih =>
    intro r h
    cases hs : stoi d.serial_number with
    | none => simpa [enumFold, hs] using h
    | some sn => simpa [enumFold, hs] using ih _ (headIsMin_mapInsert r sn d.product_id h)

/-- When some entry's serial fails to parse, the walk ends in the
propagating `std::stoi` exception and the registry holds exactly the
entries inserted before the first failing one. -/
theorem enumFold_fail : ∀ (ds : List DevInfo) (r : Registry),
    (∃ d ∈ ds, stoi d.serial_number = none) →
    (enumFold ds r).2 = EnumRet.serialFormatFailure ∧
    (enumFold ds r).1 =
      (enumFold (ds.takeWhile fun d => (stoi d.serial_number).isSome) r).1 := by
  intro ds
  induction ds with
  | nil =>
    intro r h
    exact absurd h (by simp)
  | cons d ds ih =>
    intro r h
    cases hs : stoi d.serial_number with
    | none =>
      constructor
      · simp [enumFold, hs]
      · simp [enumFold, List.takeWhile_cons, hs]
    | some sn =>
      have h' : ∃ d' ∈ ds, stoi d'.serial_number = none := by
        rcases h with ⟨d', hd', hn⟩
        rcases List.mem_cons.mp hd' with rfl | hm
        · rw [hs] at hn; cases hn
        · exact ⟨d', hm, hn⟩
      have hrec := ih (mapInsert r sn d.product_id) h'
      constructor
      · simpa [enumFold, hs] using hrec.1
      · simpa [enumFold, List.takeWhile_cons, hs] using hrec.2

/-- C4 counterexample: enumerating a device list whose entry has the
non-numeric serial `"abc"` does fail, but it does NOT leave the registry
unchanged — `mSlDevPid.clear()` runs before the walk, so the prior
registry contents are gone. -/
theorem C4_registry_not_unchanged_counterexample :
    (enumerateDevices true devsC4 priorC4).2 = EnumRet.serialFormatFailure ∧
    (enumerateDevices true devsC4 priorC4).1 ≠ priorC4 := by
  decide

/-- C4 amended: an `enumerate()` call over a device list containing a
non-numeric serial fails (the `std::stoi` exception escapes the call, the
embedding's `SerialFormatError`), and the registry after the call is NOT
its pre-call state: it has been cleared at entry and holds exactly the
entries parsed before the first malformed one. -/
theorem C4_fail_leaves_cleared_prefix (devs : List DevInfo) (prior : Registry)
    (h : ∃ d ∈ devs, stoi d.serial_number = none) :
    (enumerateDevices true devs prior).2 = EnumRet.serialFormatFailure ∧
    (enumerateDevices true devs prior).1 =
      (enumFold (devs.takeWhile fun d => (stoi d.serial_number).isSome) []).1 := by
  have hf := enumFold_fail devs [] h
  simpa [enumerateDevices] using hf

/-- Witness for C4 amended: one parseable entry followed by the serial
`"abc"`, against a non-empty prior registry. -/
theorem C4_fail_leaves_cleared_prefix_witness :
    (∃ d ∈ devsC4w, stoi d.serial_number = none) ∧
    ((enumerateDevices true devsC4w priorC4).2 = EnumRet.serialFormatFailure ∧
     (enumerateDevices true devsC4w priorC4).1 =
       (enumFold (devsC4w.takeWhile fun d => (stoi d.serial_number).isSome) []).1) :=
  ⟨by decide, C4_fail_leaves_cleared_prefix devsC4w priorC4 (by decide)⟩

/-- `initCont` always hands `hid_open` the serial it was given. -/
theorem initCont_openedSn (r : Registry) (sn : Int) (h e p : Bool) :
    (initCont r sn h e p).openedSn = some sn := by
  simp only [initCont]
  split_ifs <;> rfl

/-- C6: a call to `init` with the serial argument absent (`-1`) works from
the registry — re-enumerated first when empty — and, when that registry is
empty, fails (the `NoDeviceFound` outcome: `ret = false`, nothing opened);
when it is non-empty, it opens the device whose serial is the lowest key
present in the registry. `hmin` is the ordered-map invariant of the stored
registry; `henum` says the enumeration did not abort on a malformed
serial. -/
theorem C6_open_picks_lowest_serial (hidInitOk : Bool) (devs : List DevInfo)
    (r : Registry) (handleOk enableOk prevInit : Bool)
    (hmin : headIsMin r)
    (henum : (initEffReg hidInitOk devs r).2 ≠ EnumRet.serialFormatFailure) :
    ((initEffReg hidInitOk devs r).1 = [] →
      init hidInitOk devs r (-1) handleOk enableOk prevInit =
        .ok ⟨false, prevInit, [], none⟩) ∧
    ((initEffReg hidInitOk devs r).1 ≠ [] →
      ∃ sn : Int,
        (∃ res : InitResult,
          init hidInitOk devs r (-1) handleOk enableOk prevInit = .ok res ∧
          res.openedSn = some sn) ∧
        sn ∈ (initEffReg hidInitOk devs r).1.map Prod.fst ∧
        ∀ k ∈ (initEffReg hidInitOk devs r).1.map Prod.fst, sn ≤ k) := by
  have hm : headIsMin (initEffReg hidInitOk devs r).1 := by
    unfold initEffReg
    split
    · unfold enumerateDevices
      split
      · exact True.intro
      · exact enumFold_headIsMin devs [] True.intro
    · exact hmin
  unfold init
  rw [if_neg (by simp)]
  rcases he : initEffReg hidInitOk devs r with ⟨reg, er⟩
  rw [he] at hm henum
  cases er with
  | serialFormatFailure => exact absurd rfl henum
  | ret n =>
    constructor
    · intro hreg
      subst hreg
      rfl
    · intro hreg
      cases reg with
      | nil => exact absurd rfl hreg
      | cons p tail =>
        obtain ⟨k, v⟩ := p
        simp only [headIsMin] at hm
        refine ⟨k,
          ⟨initCont ((k, v) :: tail) k handleOk enableOk prevInit, rfl,
           initCont_openedSn _ _ _ _ _⟩, by simp, ?_⟩
        intro k' hk'
        simp only [List.map_cons, List.mem_cons] at hk'
        rcases hk' with rfl | hk'
        · exact le_refl k'
        · rcases List.mem_map.mp hk' with ⟨q, hq, rfl⟩
          exact hm q hq

/-- Witness for C6: an initially empty registry, a device list reporting
serials 1002 then 1001; the call opens serial 1001. -/
theorem C6_open_picks_lowest_serial_witness :
    (headIsMin ([] : Registry) ∧
     (initEffReg true devsC6 []).2 ≠ EnumRet.serialFormatFailure) ∧
    (((initEffReg true devsC6 []).1 = [] →
       init true devsC6 [] (-1) true true false = .ok ⟨false, false, [], none⟩) ∧
     ((initEffReg true devsC6 []).1 ≠ [] →
       ∃ sn : Int,
         (∃ res : InitResult,
           init true devsC6 [] (-1) true true false = .ok res ∧
           res.openedSn = some sn) ∧
         sn ∈ (initEffReg true devsC6 []).1.map Prod.fst ∧
         ∀ k ∈ (initEffReg true devsC6 []).1.map Prod.fst, sn ≤ k)) :=
  ⟨⟨True.intro, by decide⟩,
   C6_open_picks_lowest_serial true devsC6 [] true true false True.intro (by decide)⟩

end SL
